import Mathlib

/-!
Verification of the FruitFrost pricing dashboard (src/app.py) against its
natural-language specification.

The script is a straight pipeline: load four sheets from a workbook, filter
the historical sales rows by a city selection, compute KPI aggregates, a
per-month trend, a price-elasticity estimate via a degree-one least-squares
fit, and a closed-form pricing simulator driven by two integer sliders.

Numeric modelling conventions used throughout:
* Python / pandas floating-point values are modelled as rationals.
* The floating-point NaN that pandas produces for the mean of an empty
  series is modelled by `Option.none`.
* The two Streamlit sliders produce Python integers, so the simulator is
  modelled over integers.
-/

namespace FruitFrost

/-- One row of the Historical_Sales sheet: City, Month, Price_per_Unit,
Units_Sold, Revenue, Profit (app.py lines 62-67 read these columns). -/
structure SalesRecord where
  city : String
  month : String
  price_per_unit : ℚ
  units_sold : ℕ
  revenue : ℚ
  profit : ℚ
deriving DecidableEq

/-- One row of the competitor-price sheet: Month, Competitor_Avg_Price. -/
structure CompetitorRecord where
  month : String
  competitor_avg_price : ℚ
deriving DecidableEq

/-- One row of the Scenario_Simulation sheet: Price_Option, Revenue, Profit. -/
structure ScenarioRecord where
  price_option : ℚ
  revenue : ℚ
  profit : ℚ
deriving DecidableEq

/-- One row of the Cost_Structure sheet: Component, Cost_Percentage. -/
structure CostComponent where
  component : String
  cost_percentage : ℚ
deriving DecidableEq

/-- Source: `filtered_data = historical[historical["City"].isin(city_filter)]`
(app.py line 55): keep exactly the rows whose City occurs in the
selection list. -/
def filtered_data (rows : List SalesRecord) (sel : List String) : List SalesRecord :=
  rows.filter (fun r => sel.contains r.city)

/-- Source: `filtered_data["Revenue"].sum()` (app.py line 64); the pandas sum of an
empty series is 0, matching `List.sum []`. -/
def totalRevenue (rows : List SalesRecord) : ℚ :=
  (rows.map (fun r => r.revenue)).sum

/-- Source: `filtered_data["Profit"].sum()` (app.py line 65). -/
def totalProfit (rows : List SalesRecord) : ℚ :=
  (rows.map (fun r => r.profit)).sum

/-- Source: `filtered_data["Units_Sold"].sum()` (app.py line 67). -/
def totalUnits (rows : List SalesRecord) : ℕ :=
  (rows.map (fun r => r.units_sold)).sum

/-- Source: `filtered_data["Price_per_Unit"].mean()` (app.py line 66): the pandas
mean is sum divided by count, and is the floating NaN when the series is
empty; NaN is modelled as `none`. -/
def meanPrice (rows : List SalesRecord) : Option ℚ :=
  if rows.isEmpty then none
  else some ((rows.map (fun r => r.price_per_unit)).sum / rows.length)

/-- The twelve calendar-month labels used by the reindex on app.py
lines 74-76. -/
def monthLabels : List String :=
  ["Jan", "Feb", "Mar", "Apr", "May", "Jun",
   "Jul", "Aug", "Sep", "Oct", "Nov", "Dec"]

/-- The Revenue sum of the groupby("Month") group with key `m`:
the sum over exactly the rows carrying that month label. -/
def monthRevenue (rows : List SalesRecord) (m : String) : ℚ :=
  ((rows.filter (fun r => r.month == m)).map (fun r => r.revenue)).sum

/-- The Profit sum of the groupby("Month") group with key `m`. -/
def monthProfit (rows : List SalesRecord) (m : String) : ℚ :=
  ((rows.filter (fun r => r.month == m)).map (fun r => r.profit)).sum

/-- Source: `filtered_data.groupby("Month")[["Revenue","Profit"]].sum().reindex([...])`
(app.py lines 74-76): one entry per calendar-month label in the fixed
Jan-to-Dec order; a label with at least one row gets the group sums, a label
absent from the data gets the NaN row that `reindex` introduces, modelled
as `none`. -/
def trend (rows : List SalesRecord) : List (String × Option (ℚ × ℚ)) :=
  monthLabels.map (fun m =>
    (m, if rows.any (fun r => r.month == m)
        then some (monthRevenue rows m, monthProfit rows m)
        else none))

/-- The payload of one worksheet.  Only the Historical_Sales payload is
consumed by the computations specified here; the other three are carried
through unchanged to their charts. -/
inductive SheetData where
  | hist (rows : List SalesRecord)
  | comp (rows : List CompetitorRecord)
  | scen (rows : List ScenarioRecord)
  | cost (rows : List CostComponent)
deriving DecidableEq

/-- A workbook: worksheets addressed by sheet name, as
`pd.read_excel(file_path, sheet_name=...)` addresses them. -/
def Workbook : Type := List (String × SheetData)

/-- How a load attempt fails: the workbook file is absent
(`FileNotFoundError` followed by `st.stop()`, app.py lines 30-32), or a
requested sheet name is not in the workbook (`pd.read_excel` raises,
halting the script). -/
inductive LoadError where
  | fileNotFound
  | sheetMissing (name : String)
deriving DecidableEq

/-- The four sheet names `load_data` requests, in request order
(app.py lines 35-39).  Note the script literally asks for "Lost_file". -/
def requestedSheets : List String :=
  ["Historical_Sales", "Lost_file", "Scenario_Simulation", "Cost_Structure"]

/-- Source: `load_data()` (app.py lines 21-40): if the file is missing, halt via
`st.stop()`; otherwise read the four sheets in order, and the first
missing sheet name raises, halting the script.  A successful load returns
the four payloads (historical, competitor, scenario, cost). -/
def load_data (fs : Option Workbook) :
    Except LoadError (SheetData × SheetData × SheetData × SheetData) :=
  match fs with
  | none => .error .fileNotFound
  | some wb =>
    match wb.lookup "Historical_Sales" with
    | none => .error (.sheetMissing "Historical_Sales")
    | some h =>
      match wb.lookup "Lost_file" with
      | none => .error (.sheetMissing "Lost_file")
      | some cp =>
        match wb.lookup "Scenario_Simulation" with
        | none => .error (.sheetMissing "Scenario_Simulation")
        | some sc =>
          match wb.lookup "Cost_Structure" with
          | none => .error (.sheetMissing "Cost_Structure")
          | some ct => .ok (h, cp, sc, ct)

/-- Rows of a sheet expected to hold historical sales data; a payload of
another shape contributes no rows (the script itself would only misrender
downstream, which is outside the verified computations). -/
def histRows : SheetData → List SalesRecord
  | .hist rows => rows
  | _ => []

/-- Source: `expected_demand = 15000 - price_slider * 300` (app.py line 133);
the slider yields a Python int. -/
def expected_demand (p : ℤ) : ℤ := 15000 - p * 300

/-- Source: `expected_revenue = price_slider * expected_demand` (app.py line 134). -/
def expected_revenue (p : ℤ) : ℤ := p * expected_demand p

/-- Source: `expected_profit = (price_slider - cost_per_unit) * expected_demand`
(app.py line 135). -/
def expected_profit (p c : ℤ) : ℤ := (p - c) * expected_demand p

/-! ### Elasticity estimator (app.py lines 105-110)

`price = filtered_data["Price_per_Unit"]`, `demand = filtered_data["Units_Sold"]`,
`elasticity = np.polyfit(price, demand, 1)[0] * (price.mean() / demand.mean())`.

The parallel price and demand series are modelled as one list of
(price, demand) pairs, so equal length is structural.  `np.polyfit(x, y, 1)`
computes the least-squares fit of `y` by `a*x + b`: on full-rank input its
leading coefficient is the ordinary-least-squares slope in closed form; on
rank-deficient input (all x equal) it emits a RankWarning and returns the
minimum-norm least-squares solution of the column-normalised Vandermonde
system, rescaled; on empty input it raises a TypeError. -/

/-- Number of observations, as a rational. -/
def nObs (d : List (ℚ × ℚ)) : ℚ := d.length

/-- Sum of the price values. -/
def sumX (d : List (ℚ × ℚ)) : ℚ := (d.map (fun p => p.1)).sum

/-- Sum of the demand values. -/
def sumY (d : List (ℚ × ℚ)) : ℚ := (d.map (fun p => p.2)).sum

/-- Sum of price times demand. -/
def sumXY (d : List (ℚ × ℚ)) : ℚ := (d.map (fun p => p.1 * p.2)).sum

/-- Sum of squared prices. -/
def sumXX (d : List (ℚ × ℚ)) : ℚ := (d.map (fun p => p.1 ^ 2)).sum

/-- Numerator of the closed-form least-squares slope. -/
def slopeNum (d : List (ℚ × ℚ)) : ℚ := nObs d * sumXY d - sumX d * sumY d

/-- Denominator of the closed-form least-squares slope; zero exactly on
rank-deficient input (fewer than two points, or all prices equal). -/
def slopeDen (d : List (ℚ × ℚ)) : ℚ := nObs d * sumXX d - sumX d ^ 2

/-- Source: `np.polyfit(price, demand, 1)[0]` on full-rank input: the
ordinary-least-squares slope in closed form. -/
def slope (d : List (ℚ × ℚ)) : ℚ := slopeNum d / slopeDen d

/-- Source: `price.mean()`. -/
def meanX (d : List (ℚ × ℚ)) : ℚ := sumX d / nObs d

/-- Source: `demand.mean()`. -/
def meanY (d : List (ℚ × ℚ)) : ℚ := sumY d / nObs d

/-- Source: `np.polyfit(...)[1]` on full-rank input: the fitted intercept. -/
def icept (d : List (ℚ × ℚ)) : ℚ := meanY d - slope d * meanX d

/-- The price value of the first observation (used only on rank-deficient
input, where every price equals it). -/
def headX (d : List (ℚ × ℚ)) : ℚ :=
  match d with
  | [] => 0
  | p :: _ => p.1

/-- Source: `np.polyfit(price, demand, 1)[0]` on nonempty rank-deficient input
(all prices equal `c`): polyfit divides each Vandermonde column by its
Euclidean norm before calling `lstsq` and rescales the solution after, so
the scaled design matrix has identical rows `(sign c / sqrt n, 1 / sqrt n)`;
the minimum-norm least-squares solution in scaled coordinates rescales to
slope `(mean demand) / (2 * c)` and intercept `(mean demand) / 2`.  This
holds for every number of observations and every nonzero `c`; a zero price
column would make the column scaling divide by zero and the fit fail, a
case no claim exercises. -/
def minNormSlope (d : List (ℚ × ℚ)) : ℚ :=
  meanY d / (2 * headX d)

/-- Source: `np.polyfit(price, demand, 1)[0]` on any nonempty input. -/
def polyfitSlope (d : List (ℚ × ℚ)) : ℚ :=
  if slopeDen d = 0 then minNormSlope d else slope d

/-- Source: `elasticity = np.polyfit(price, demand, 1)[0] * (price.mean() / demand.mean())`
(app.py line 108), as a rational value; meaningful when the fit is
full-rank and the mean demand is nonzero. -/
def elasticity (d : List (ℚ × ℚ)) : ℚ :=
  slope d * (meanX d / meanY d)

/-- Outcome of the elasticity stage as observed by the user: the script
either crashes (uncaught exception), produces a floating value that is not
finite (infinity or NaN), or displays a finite number.  The script has no
other outcome: in particular it has no "insufficient data" report. -/
inductive ElasticityOutcome where
  | crash
  | nonfinite
  | val (q : ℚ)
deriving DecidableEq

/-- The elasticity stage of the script (app.py lines 105-110): on the empty
series `np.polyfit` raises a TypeError (crash); otherwise the fitted slope
is finite (closed form on full-rank input, minimum-norm solution on
rank-deficient input), and dividing by a zero mean demand makes the
displayed value non-finite; otherwise the finite value is displayed. -/
def elasticityStage (d : List (ℚ × ℚ)) : ElasticityOutcome :=
  if d = [] then .crash
  else if meanY d = 0 then .nonfinite
  else .val (polyfitSlope d * (meanX d / meanY d))

/-- Modelled from the spec: "slope = best-fit linear regression coefficient
of demand on price (ordinary least squares, minimizing sum of squared
residuals of demand predicted from price)".  The sum of squared residuals
of the affine predictor `a * price + b`. -/
def RSS (d : List (ℚ × ℚ)) (a b : ℚ) : ℚ :=
  (d.map (fun p => (p.2 - (a * p.1 + b)) ^ 2)).sum

/-! ### The view model: everything the script renders after a load -/

/-- All data-derived outputs of one script run: the four KPI metrics, the
trend chart data, the elasticity metric, and the three simulator metrics,
plus the three sheets rendered unchanged as charts. -/
structure ViewModel where
  kpiRevenue : ℚ
  kpiProfit : ℚ
  kpiMeanPrice : Option ℚ
  kpiUnits : ℕ
  trendChart : List (String × Option (ℚ × ℚ))
  elasticityMetric : ElasticityOutcome
  simDemand : ℤ
  simRevenue : ℤ
  simProfit : ℤ
  scenarioChart : SheetData
  costChart : SheetData
  competitorChart : SheetData
deriving DecidableEq

/-- One full recomputation pass over loaded data: filter by the city
selection, then compute the KPI metrics, trend, elasticity and simulator
outputs (app.py lines 55-140). -/
def viewModel (data : SheetData × SheetData × SheetData × SheetData)
    (sel : List String) (p c : ℤ) : ViewModel :=
  let fd := filtered_data (histRows data.1) sel
  { kpiRevenue := totalRevenue fd
    kpiProfit := totalProfit fd
    kpiMeanPrice := meanPrice fd
    kpiUnits := totalUnits fd
    trendChart := trend fd
    elasticityMetric :=
      elasticityStage (fd.map (fun r => (r.price_per_unit, (r.units_sold : ℚ))))
    simDemand := expected_demand p
    simRevenue := expected_revenue p
    simProfit := expected_profit p c
    scenarioChart := data.2.2.1
    costChart := data.2.2.2
    competitorChart := data.2.1 }

/-- The whole script as a function of the file system, the city selection
and the two sliders: a failed load halts everything, a successful load
produces the full view model. -/
def runDashboard (fs : Option Workbook) (sel : List String) (p c : ℤ) :
    Except LoadError ViewModel :=
  (load_data fs).map (fun data => viewModel data sel p c)

/-! ### Theorems for the simulator claims -/

/-- A concrete loaded dataset used by closed witness statements. -/
def demoData : SheetData × SheetData × SheetData × SheetData :=
  (.hist [], .comp [], .scen [], .cost [])

/-- C2: for every price in [20,35] and cost_per_unit in [8,18] the scenario
simulator returns expected_demand = 15000 - price * 300, expected_revenue =
price * expected_demand and expected_profit = (price - cost_per_unit) *
expected_demand; at price 25 and cost 12 it returns demand 7500, revenue
187500 and profit 97500. -/
theorem c2_simulator_formulas (data : SheetData × SheetData × SheetData × SheetData)
    (sel : List String) (p c : ℤ)
    (_hp1 : 20 ≤ p) (_hp2 : p ≤ 35) (_hc1 : 8 ≤ c) (_hc2 : c ≤ 18) :
    (viewModel data sel p c).simDemand = 15000 - p * 300 ∧
    (viewModel data sel p c).simRevenue = p * (15000 - p * 300) ∧
    (viewModel data sel p c).simProfit = (p - c) * (15000 - p * 300) ∧
    (viewModel data sel 25 12).simDemand = 7500 ∧
    (viewModel data sel 25 12).simRevenue = 187500 ∧
    (viewModel data sel 25 12).simProfit = 97500 :=
  ⟨rfl, rfl, rfl, rfl, rfl, rfl⟩

/-- Witness for C2 at price 25, cost 12. -/
theorem c2_simulator_formulas_witness :
    (viewModel demoData [] 25 12).simDemand = 15000 - 25 * 300 ∧
    (viewModel demoData [] 25 12).simRevenue = 25 * (15000 - 25 * 300) ∧
    (viewModel demoData [] 25 12).simProfit = (25 - 12) * (15000 - 25 * 300) ∧
    (viewModel demoData [] 25 12).simDemand = 7500 ∧
    (viewModel demoData [] 25 12).simRevenue = 187500 ∧
    (viewModel demoData [] 25 12).simProfit = 97500 :=
  c2_simulator_formulas demoData [] 25 12 (by decide) (by decide) (by decide) (by decide)

/-- C6: across the whole slider range [20,35] the expected demand is
non-negative, bounded below by 4500; it equals 9000 at price 20 and attains
its minimum 4500 at price 35, so a clamp to zero would never trigger. -/
theorem c6_demand_never_negative (p : ℤ) (h1 : 20 ≤ p) (h2 : p ≤ 35) :
    0 ≤ expected_demand p ∧ 4500 ≤ expected_demand p ∧
    expected_demand 20 = 9000 ∧ expected_demand 35 = 4500 := by
  simp only [expected_demand]
  omega

/-- Witness for C6 at price 20. -/
theorem c6_demand_never_negative_witness :
    0 ≤ expected_demand 20 ∧ 4500 ≤ expected_demand 20 ∧
    expected_demand 20 = 9000 ∧ expected_demand 35 = 4500 :=
  c6_demand_never_negative 20 (by decide) (by decide)

/-- C8: the simulator outputs depend only on the two slider values: two
runs with the same (price, cost) but different loaded datasets and city
selections render identical simulator metrics, equal to the fixed linear
model. -/
theorem c8_simulator_deterministic
    (d1 d2 : SheetData × SheetData × SheetData × SheetData)
    (s1 s2 : List String) (p c : ℤ) :
    (viewModel d1 s1 p c).simDemand = (viewModel d2 s2 p c).simDemand ∧
    (viewModel d1 s1 p c).simRevenue = (viewModel d2 s2 p c).simRevenue ∧
    (viewModel d1 s1 p c).simProfit = (viewModel d2 s2 p c).simProfit ∧
    (viewModel d1 s1 p c).simDemand = expected_demand p ∧
    (viewModel d1 s1 p c).simRevenue = expected_revenue p ∧
    (viewModel d1 s1 p c).simProfit = expected_profit p c :=
  ⟨rfl, rfl, rfl, rfl, rfl, rfl⟩

/-- C10: for every price and cost, expected_revenue minus expected_profit
equals cost_per_unit times expected_demand. -/
theorem c10_revenue_profit_identity (p c : ℤ) :
    expected_revenue p - expected_profit p c = c * expected_demand p := by
  simp only [expected_revenue, expected_profit]
  ring

/-! ### Aggregation claims -/

/-- The city filter keeps exactly the rows whose city is a member of the
selection. -/
lemma filtered_data_eq_filter_mem (rows : List SalesRecord) (sel : List String) :
    filtered_data rows sel = rows.filter (fun r => decide (r.city ∈ sel)) := by
  simp only [filtered_data]
  apply List.filter_congr
  intro r _
  simp [List.contains]

/-- Filtering with a weaker membership predicate can only drop rows, so
with row-wise non-negative revenue the revenue sum can only shrink. -/
lemma sum_revenue_filter_mono (rows : List SalesRecord)
    (p q : SalesRecord → Prop) [DecidablePred p] [DecidablePred q]
    (himp : ∀ r, p r → q r) (hnn : ∀ r ∈ rows, 0 ≤ r.revenue) :
    ((rows.filter (fun r => decide (p r))).map (fun r => r.revenue)).sum ≤
    ((rows.filter (fun r => decide (q r))).map (fun r => r.revenue)).sum := by
  induction rows with
  | nil => simp
  | cons r t ih =>
    have hr : 0 ≤ r.revenue := hnn r (by simp)
    have ht : ∀ x ∈ t, 0 ≤ x.revenue := fun x hx => hnn x (by simp [hx])
    by_cases hp : p r
    · have hq : q r := himp r hp
      simpa [List.filter_cons, hp, hq] using add_le_add_left (ih ht) r.revenue
    · by_cases hq : q r
      · simp only [List.filter_cons, hp, hq]
        simp only [decide_eq_true_eq, if_pos, if_neg, decide_eq_true hq]
        calc ((t.filter (fun x => decide (p x))).map (fun x => x.revenue)).sum
            ≤ ((t.filter (fun x => decide (q x))).map (fun x => x.revenue)).sum := ih ht
          _ ≤ r.revenue +
              ((t.filter (fun x => decide (q x))).map (fun x => x.revenue)).sum := by
              linarith
      · simpa [List.filter_cons, hp, hq] using ih ht

/-- C4 (evaluation at the failing input): with no cities selected the
filtered dataset is empty, the three sums are zero, and the mean price is
the pandas NaN (modelled `none`) — the script renders that NaN; it has no
explicit no-data report. -/
theorem c4_empty_selection_aggregation (rows : List SalesRecord) :
    filtered_data rows [] = [] ∧
    totalRevenue (filtered_data rows []) = 0 ∧
    totalProfit (filtered_data rows []) = 0 ∧
    totalUnits (filtered_data rows []) = 0 ∧
    meanPrice (filtered_data rows []) = none := by
  have h : filtered_data rows [] = [] := by
    rw [filtered_data_eq_filter_mem]
    simp
  refine ⟨h, ?_, ?_, ?_, ?_⟩ <;> simp [h, totalRevenue, totalProfit, totalUnits, meanPrice]

/-- C5 (amended): the aggregated total revenue is the sum of the Revenue
values of exactly the rows whose City is in the selection; and when every
row has non-negative Revenue, a selection that is a subset of another
yields a total revenue that is at most the larger one. -/
theorem c5_filter_sum_and_monotone (rows : List SalesRecord) (sel1 sel2 : List String) :
    totalRevenue (filtered_data rows sel1) =
      ((rows.filter (fun r => decide (r.city ∈ sel1))).map (fun r => r.revenue)).sum ∧
    (sel1 ⊆ sel2 → (∀ r ∈ rows, 0 ≤ r.revenue) →
      totalRevenue (filtered_data rows sel1) ≤ totalRevenue (filtered_data rows sel2)) := by
  constructor
  · rw [filtered_data_eq_filter_mem]
    rfl
  · intro hsub hnn
    rw [filtered_data_eq_filter_mem, filtered_data_eq_filter_mem]
    exact sum_revenue_filter_mono rows (fun r => r.city ∈ sel1) (fun r => r.city ∈ sel2)
      (fun r hr => hsub hr) hnn

/-- A sales row with negative recorded revenue: legal for the loader, the
data model does not enforce Revenue = price x units. -/
def negRow : SalesRecord :=
  { city := "A", month := "Jan", price_per_unit := 10,
    units_sold := 0, revenue := -1, profit := 0 }

/-- C5 (counterexample): on a dataset holding one row with Revenue -1 the
empty selection is a subset of the selection of that city, yet its total
revenue 0 exceeds the larger selection's total revenue -1 — monotonicity
under subset filtering fails as universally stated. -/
theorem c5_monotonicity_counterexample :
    ([] : List String) ⊆ ["A"] ∧
    ¬ (totalRevenue (filtered_data [negRow] []) ≤
        totalRevenue (filtered_data [negRow] ["A"])) := by
  constructor
  · simp
  · rw [filtered_data_eq_filter_mem, filtered_data_eq_filter_mem]
    simp [totalRevenue, negRow]

/-- Two concrete sales rows used by the C5 witness. -/
def wRows : List SalesRecord :=
  [ { city := "Pune", month := "Jan", price_per_unit := 10,
      units_sold := 100, revenue := 1000, profit := 300 },
    { city := "Delhi", month := "Feb", price_per_unit := 12,
      units_sold := 50, revenue := 600, profit := 200 } ]

/-- Witness for C5 at a concrete dataset and a concrete subset pair. -/
theorem c5_filter_sum_and_monotone_witness :
    totalRevenue (filtered_data wRows ["Pune"]) =
      ((wRows.filter (fun r => decide (r.city ∈ ["Pune"]))).map (fun r => r.revenue)).sum ∧
    totalRevenue (filtered_data wRows ["Pune"]) ≤
      totalRevenue (filtered_data wRows ["Pune", "Delhi"]) := by
  have h := c5_filter_sum_and_monotone wRows ["Pune"] ["Pune", "Delhi"]
  refine ⟨h.1, h.2 ?_ ?_⟩
  · intro a ha
    simp only [List.mem_singleton] at ha
    simp [ha]
  · intro r hr
    simp only [wRows, List.mem_cons, List.mem_singleton] at hr
    rcases hr with h1 | h1 | h1
    · subst h1
      norm_num
    · subst h1
      norm_num
    · cases h1

/-! ### Trend claim -/

/-- C7: the per-month trend lists exactly the twelve calendar months in
the fixed Jan-to-Dec order; a month with no row in the filtered data keeps
the missing/NaN entry produced by the reindex (modelled `none`), and a
month with data carries the per-month Revenue and Profit sums. -/
theorem c7_trend_calendar (rows : List SalesRecord) :
    (trend rows).map Prod.fst = monthLabels ∧
    (∀ m v, (m, v) ∈ trend rows →
      ((v = none ↔ ∀ r ∈ rows, r.month ≠ m) ∧
       (v = none ∨ v = some (monthRevenue rows m, monthProfit rows m)))) := by
  constructor
  · rfl
  · intro m v hmv
    simp only [trend, List.mem_map] at hmv
    obtain ⟨m0, _, heq⟩ := hmv
    rw [Prod.mk.injEq] at heq
    obtain ⟨h1, h2⟩ := heq
    subst h1
    subst h2
    constructor
    · constructor
      · intro hnone r hr heq2
        by_cases h : rows.any (fun x => x.month == m0) = true
        · rw [if_pos h] at hnone
          cases hnone
        · exact h (List.any_eq_true.mpr ⟨r, hr, by simp [heq2]⟩)
      · intro hall
        have hc : ¬ (rows.any (fun x => x.month == m0) = true) := by
          intro hany
          rcases List.any_eq_true.mp hany with ⟨r, hr, hb⟩
          exact hall r hr (by simpa using hb)
        rw [if_neg hc]
    · by_cases h : rows.any (fun x => x.month == m0) = true
      · right
        rw [if_pos h]
      · left
        rw [if_neg h]

/-- Witness for C7 on a concrete dataset, at the month Jan which has data. -/
theorem c7_trend_calendar_witness :
    (trend wRows).map Prod.fst = monthLabels ∧
    (((if wRows.any (fun r => r.month == "Jan")
        then some (monthRevenue wRows "Jan", monthProfit wRows "Jan")
        else none) = none ↔ ∀ r ∈ wRows, r.month ≠ "Jan") ∧
      ((if wRows.any (fun r => r.month == "Jan")
        then some (monthRevenue wRows "Jan", monthProfit wRows "Jan")
        else none) = none ∨
       (if wRows.any (fun r => r.month == "Jan")
        then some (monthRevenue wRows "Jan", monthProfit wRows "Jan")
        else none) = some (monthRevenue wRows "Jan", monthProfit wRows "Jan"))) := by
  have h := c7_trend_calendar wRows
  refine ⟨h.1, h.2 "Jan" _ ?_⟩
  simp [trend, monthLabels]

/-! ### Load-failure claim -/

/-- If any requested sheet name has no entry in the workbook, the load
errors out. -/
lemma load_data_error_of_missing (wb : Workbook) (name : String)
    (hname : name ∈ requestedSheets) (hlook : wb.lookup name = none) :
    ∃ e, load_data (some wb) = .error e := by
  simp only [requestedSheets, List.mem_cons, List.not_mem_nil, or_false] at hname
  cases hh : wb.lookup "Historical_Sales" with
  | none => exact ⟨.sheetMissing "Historical_Sales", by simp [load_data, hh]⟩
  | some sh =>
    cases hl : wb.lookup "Lost_file" with
    | none => exact ⟨.sheetMissing "Lost_file", by simp [load_data, hh, hl]⟩
    | some sl =>
      cases hs : wb.lookup "Scenario_Simulation" with
      | none => exact ⟨.sheetMissing "Scenario_Simulation", by simp [load_data, hh, hl, hs]⟩
      | some ss =>
        cases hc : wb.lookup "Cost_Structure" with
        | none => exact ⟨.sheetMissing "Cost_Structure", by simp [load_data, hh, hl, hs, hc]⟩
        | some sc =>
          exfalso
          rcases hname with rfl | rfl | rfl | rfl
          · rw [hh] at hlook
            cases hlook
          · rw [hl] at hlook
            cases hlook
          · rw [hs] at hlook
            cases hlook
          · rw [hc] at hlook
            cases hlook

/-- C9: a missing workbook file halts the run with the file-not-found
error; a workbook lacking any of the four requested sheet names makes the
load error out; and whenever the load errors, the whole run yields that
error and no view model — no metric or chart is produced. -/
theorem c9_load_fail_fast (fs : Option Workbook) (sel : List String) (p c : ℤ) :
    (fs = none → runDashboard fs sel p c = .error .fileNotFound) ∧
    (∀ wb, fs = some wb → ∀ name ∈ requestedSheets, wb.lookup name = none →
      ∃ e, runDashboard fs sel p c = .error e) ∧
    (∀ e, load_data fs = .error e →
      runDashboard fs sel p c = .error e ∧ ∀ vm, runDashboard fs sel p c ≠ .ok vm) := by
  refine ⟨?_, ?_, ?_⟩
  · rintro rfl
    rfl
  · rintro wb rfl name hname hlook
    obtain ⟨e, he⟩ := load_data_error_of_missing wb name hname hlook
    exact ⟨e, by simp [runDashboard, he, Except.map]⟩
  · intro e he
    have hrun : runDashboard fs sel p c = .error e := by
      simp [runDashboard, he, Except.map]
    exact ⟨hrun, fun vm hvm => by rw [hrun] at hvm; cases hvm⟩

/-- A workbook holding only the Historical_Sales sheet; the sheet named
"Lost_file" that the script requests is absent. -/
def wb0 : Workbook := [("Historical_Sales", SheetData.hist [])]

/-- Witness for C9: the missing file halts with fileNotFound, and the
workbook lacking the requested "Lost_file" sheet makes the run error out. -/
theorem c9_load_fail_fast_witness :
    runDashboard none [] 25 12 = .error .fileNotFound ∧
    (∃ e, runDashboard (some wb0) [] 25 12 = .error e) := by
  refine ⟨(c9_load_fail_fast none [] 25 12).1 rfl, ?_⟩
  refine (c9_load_fail_fast (some wb0) [] 25 12).2.1 wb0 rfl "Lost_file" ?_ ?_
  · simp [requestedSheets]
  · simp [wb0, List.lookup]

/-! ### Least-squares development for the elasticity claims -/

/-- A sum of squares over a list is non-negative. -/
lemma sum_map_sq_nonneg (l : List (ℚ × ℚ)) (f : ℚ × ℚ → ℚ) :
    0 ≤ (l.map (fun p => f p ^ 2)).sum := by
  induction l with
  | nil => simp
  | cons r t ih =>
    simp only [List.map_cons, List.sum_cons]
    have h := sq_nonneg (f r)
    linarith

/-- A sum of squares over a list is zero only when every term vanishes. -/
lemma sum_map_sq_eq_zero (l : List (ℚ × ℚ)) (f : ℚ × ℚ → ℚ)
    (h : (l.map (fun p => f p ^ 2)).sum = 0) : ∀ p ∈ l, f p = 0 := by
  induction l with
  | nil =>
    intro p hp
    cases hp
  | cons r t ih =>
    simp only [List.map_cons, List.sum_cons] at h
    have h1 : 0 ≤ (t.map (fun p => f p ^ 2)).sum := sum_map_sq_nonneg t f
    have h2 : f r ^ 2 = 0 := by nlinarith [sq_nonneg (f r)]
    intro p hp
    rcases List.mem_cons.mp hp with rfl | hp2
    · exact pow_eq_zero_iff (by norm_num) |>.mp h2
    · exact ih (by linarith) p hp2

/-- Sum of affine residuals in terms of the moment sums. -/
lemma sum_map_affine (l : List (ℚ × ℚ)) (a b : ℚ) :
    (l.map (fun p => p.2 - (a * p.1 + b))).sum =
      sumY l - a * sumX l - l.length * b := by
  induction l with
  | nil => simp [sumX, sumY]
  | cons r t ih =>
    simp only [List.map_cons, List.sum_cons, sumX, sumY, List.length_cons] at *
    push_cast
    linear_combination ih

/-- Sum of price-weighted affine residuals in terms of the moment sums. -/
lemma sum_map_affine_x (l : List (ℚ × ℚ)) (a b : ℚ) :
    (l.map (fun p => p.1 * (p.2 - (a * p.1 + b)))).sum =
      sumXY l - a * sumXX l - b * sumX l := by
  induction l with
  | nil => simp [sumX, sumXY, sumXX]
  | cons r t ih =>
    simp only [List.map_cons, List.sum_cons, sumX, sumXY, sumXX] at *
    linear_combination ih

/-- Sum of squared centred prices in terms of the moment sums. -/
lemma sum_map_centered_sq (l : List (ℚ × ℚ)) (m : ℚ) :
    (l.map (fun p => (p.1 - m) ^ 2)).sum =
      sumXX l - 2 * m * sumX l + l.length * m ^ 2 := by
  induction l with
  | nil => simp [sumX, sumXX]
  | cons r t ih =>
    simp only [List.map_cons, List.sum_cons, sumX, sumXX, List.length_cons] at *
    push_cast
    linear_combination ih

/-- Completing the square: the residual sum of squares at any `(a, b)`
decomposes over the residual sum at `(a0, b0)` plus correction terms. -/
lemma rss_decomp (l : List (ℚ × ℚ)) (a0 b0 a b : ℚ) :
    RSS l a b = RSS l a0 b0
      + 2 * (a0 - a) * (l.map (fun p => p.1 * (p.2 - (a0 * p.1 + b0)))).sum
      + 2 * (b0 - b) * (l.map (fun p => p.2 - (a0 * p.1 + b0))).sum
      + (l.map (fun p => ((a0 - a) * p.1 + (b0 - b)) ^ 2)).sum := by
  induction l with
  | nil => simp [RSS]
  | cons r t ih =>
    simp only [RSS, List.map_cons, List.sum_cons] at *
    linear_combination ih

/-- A list with at least two elements is nonempty. -/
lemma ne_nil_of_two_le (d : List (ℚ × ℚ)) (h2 : 2 ≤ d.length) : d ≠ [] := by
  intro h
  subst h
  simp at h2

/-- The observation count is nonzero for at least two observations. -/
lemma nObs_ne_zero (d : List (ℚ × ℚ)) (h2 : 2 ≤ d.length) : nObs d ≠ 0 := by
  simp only [nObs, ne_eq, Nat.cast_eq_zero]
  omega

/-- First normal equation: the fitted residuals sum to zero. -/
lemma sum_resid (d : List (ℚ × ℚ)) (hn : nObs d ≠ 0) :
    (d.map (fun p => p.2 - (slope d * p.1 + icept d))).sum = 0 := by
  rw [sum_map_affine]
  have hc : (d.length : ℚ) = nObs d := rfl
  rw [hc]
  simp only [icept, meanX, meanY]
  field_simp

/-- Second normal equation: the price-weighted fitted residuals sum to
zero when the fit is full-rank. -/
lemma sum_x_resid (d : List (ℚ × ℚ)) (hn : nObs d ≠ 0) (hden : slopeDen d ≠ 0) :
    (d.map (fun p => p.1 * (p.2 - (slope d * p.1 + icept d)))).sum = 0 := by
  rw [sum_map_affine_x]
  have hden2 : nObs d * sumXX d - sumX d ^ 2 ≠ 0 := by simpa [slopeDen] using hden
  simp only [slope, slopeNum, slopeDen, icept, meanX, meanY]
  field_simp
  ring

/-- The slope denominator is the observation count times the sum of
squared centred prices. -/
lemma slopeDen_expand (d : List (ℚ × ℚ)) (hn : nObs d ≠ 0) :
    slopeDen d = nObs d * (d.map (fun p => (p.1 - meanX d) ^ 2)).sum := by
  rw [sum_map_centered_sq]
  have hc : (d.length : ℚ) = nObs d := rfl
  rw [hc]
  simp only [slopeDen, meanX]
  field_simp
  ring

/-- With at least two observations and two distinct prices, the slope
denominator is nonzero (the regression is well posed). -/
lemma slopeDen_ne_zero (d : List (ℚ × ℚ)) (h2 : 2 ≤ d.length)
    (hvar : ∃ p ∈ d, ∃ q ∈ d, p.1 ≠ q.1) : slopeDen d ≠ 0 := by
  have hn : nObs d ≠ 0 := nObs_ne_zero d h2
  rw [slopeDen_expand d hn]
  intro h
  rcases mul_eq_zero.mp h with h | h
  · exact hn h
  · obtain ⟨p, hp, q, hq, hne⟩ := hvar
    have hz := sum_map_sq_eq_zero d (fun p => p.1 - meanX d) h
    have e1 : p.1 - meanX d = 0 := hz p hp
    have e2 : q.1 - meanX d = 0 := hz q hq
    apply hne
    have h3 : p.1 = meanX d := by linarith
    have h4 : q.1 = meanX d := by linarith
    rw [h3, h4]

/-- The closed-form slope and intercept minimise the residual sum of
squares among all affine predictors. -/
lemma rss_minimal (d : List (ℚ × ℚ)) (hn : nObs d ≠ 0) (hden : slopeDen d ≠ 0)
    (a b : ℚ) : RSS d (slope d) (icept d) ≤ RSS d a b := by
  rw [rss_decomp d (slope d) (icept d) a b, sum_x_resid d hn hden, sum_resid d hn]
  have h := sum_map_sq_nonneg d (fun p => (slope d - a) * p.1 + (icept d - b))
  linarith

/-- Any minimiser of the residual sum of squares has the closed-form
slope as its leading coefficient, provided two prices differ. -/
lemma rss_unique (d : List (ℚ × ℚ)) (hn : nObs d ≠ 0) (hden : slopeDen d ≠ 0)
    (hvar : ∃ p ∈ d, ∃ q ∈ d, p.1 ≠ q.1) (a b : ℚ)
    (hmin : ∀ a2 b2, RSS d a b ≤ RSS d a2 b2) : a = slope d := by
  have hdec := rss_decomp d (slope d) (icept d) a b
  rw [sum_x_resid d hn hden, sum_resid d hn] at hdec
  have h1 := hmin (slope d) (icept d)
  have hs := sum_map_sq_nonneg d (fun p => (slope d - a) * p.1 + (icept d - b))
  have hs0 : (d.map (fun p => ((slope d - a) * p.1 + (icept d - b)) ^ 2)).sum = 0 := by
    linarith
  have hz := sum_map_sq_eq_zero d _ hs0
  obtain ⟨p, hp, q, hq, hne⟩ := hvar
  have e1 : (slope d - a) * p.1 + (icept d - b) = 0 := hz p hp
  have e2 : (slope d - a) * q.1 + (icept d - b) = 0 := hz q hq
  have h6 : (slope d - a) * (p.1 - q.1) = 0 := by linear_combination e1 - e2
  rcases mul_eq_zero.mp h6 with h | h
  · linarith
  · exact absurd (by linarith : p.1 = q.1) hne

/-- On nonempty full-rank input with nonzero mean demand, the elasticity
stage displays the closed-form value. -/
lemma elasticityStage_val (d : List (ℚ × ℚ)) (hnil : d ≠ [])
    (hy : meanY d ≠ 0) (hden : slopeDen d ≠ 0) :
    elasticityStage d = .val (slope d * (meanX d / meanY d)) := by
  simp only [elasticityStage, polyfitSlope]
  rw [if_neg hnil, if_neg hy, if_neg hden]

/-- The worked example of the spec: three exactly collinear observations
with slope -300 and means 25 and 7500. -/
def elastEx : List (ℚ × ℚ) := [(20, 9000), (25, 7500), (30, 6000)]

/-- A zero-variance example: both observations price 25. -/
def zeroVarEx : List (ℚ × ℚ) := [(25, 100), (25, 200)]

/-- Evaluating the elasticity stage on the worked example yields -1. -/
lemma elastEx_eval : elasticityStage elastEx = .val (-1) := by
  have h1 : elastEx ≠ [] := by simp [elastEx]
  have h2 : meanY elastEx ≠ 0 := by norm_num [meanY, sumY, nObs, elastEx]
  have h3 : slopeDen elastEx ≠ 0 := by norm_num [slopeDen, sumXX, sumX, nObs, elastEx]
  rw [elasticityStage_val elastEx h1 h2 h3]
  norm_num [slope, slopeNum, slopeDen, meanX, meanY, sumX, sumY, sumXY, sumXX, nObs, elastEx]

/-- C1 (amended): on parallel price/demand observations of length at least
two, with two distinct prices and nonzero mean demand, the estimator
returns slope times (mean price / mean demand), where the slope is exactly
the ordinary-least-squares coefficient: it minimises the sum of squared
residuals of demand predicted from price, and every minimiser shares it;
on the spec worked example [(20,9000),(25,7500),(30,6000)] the returned
value is exactly -1 (the data has slope -300 and means 25 and 7500). -/
theorem c1_elasticity_is_ols (d : List (ℚ × ℚ)) (h2 : 2 ≤ d.length)
    (hvar : ∃ p ∈ d, ∃ q ∈ d, p.1 ≠ q.1) (hy : meanY d ≠ 0) :
    elasticityStage d = ElasticityOutcome.val (slope d * (meanX d / meanY d)) ∧
    (∀ a b, RSS d (slope d) (icept d) ≤ RSS d a b) ∧
    (∀ a b, (∀ a2 b2, RSS d a b ≤ RSS d a2 b2) → a = slope d) ∧
    elasticityStage elastEx = ElasticityOutcome.val (-1) := by
  have hn := nObs_ne_zero d h2
  have hden := slopeDen_ne_zero d h2 hvar
  have hnil := ne_nil_of_two_le d h2
  exact ⟨elasticityStage_val d hnil hy hden, rss_minimal d hn hden,
    rss_unique d hn hden hvar, elastEx_eval⟩

/-- Witness for C1 on the spec worked example. -/
theorem c1_elasticity_is_ols_witness :
    elasticityStage elastEx =
      ElasticityOutcome.val (slope elastEx * (meanX elastEx / meanY elastEx)) ∧
    (∀ a b, RSS elastEx (slope elastEx) (icept elastEx) ≤ RSS elastEx a b) ∧
    (∀ a b, (∀ a2 b2, RSS elastEx a b ≤ RSS elastEx a2 b2) → a = slope elastEx) ∧
    elasticityStage elastEx = ElasticityOutcome.val (-1) :=
  c1_elasticity_is_ols elastEx (by norm_num [elastEx])
    ⟨(20, 9000), by simp [elastEx], (25, 7500), by simp [elastEx], by norm_num⟩
    (by norm_num [meanY, sumY, nObs, elastEx])

/-- C1 (counterexample): on the spec worked example the code returns
exactly -1, not the -2.0 the claim asserts. -/
theorem c1_elasticity_counterexample :
    elasticityStage elastEx = ElasticityOutcome.val (-1) ∧
    elasticityStage elastEx ≠ ElasticityOutcome.val (-2) := by
  refine ⟨elastEx_eval, ?_⟩
  rw [elastEx_eval]
  intro h
  injection h with h2
  norm_num at h2

/-- C3 (evaluation at the failing inputs): the estimator has no
insufficient-data report.  On the empty observation set `np.polyfit`
raises (the script crashes), and on the zero-variance input
[(25,100),(25,200)] the rank-deficient fit silently yields slope 3 and
the spurious finite elasticity 1/2, which the script displays as a
number. -/
theorem c3_no_insufficient_data_report :
    elasticityStage ([] : List (ℚ × ℚ)) = ElasticityOutcome.crash ∧
    elasticityStage zeroVarEx = ElasticityOutcome.val (1 / 2) := by
  constructor
  · rfl
  · have h1 : zeroVarEx ≠ [] := by simp [zeroVarEx]
    have hy : meanY zeroVarEx ≠ 0 := by norm_num [meanY, sumY, nObs, zeroVarEx]
    have hden : slopeDen zeroVarEx = 0 := by
      norm_num [slopeDen, sumXX, sumX, nObs, zeroVarEx]
    simp only [elasticityStage, polyfitSlope]
    rw [if_neg h1, if_neg hy, if_pos hden]
    norm_num [minNormSlope, headX, meanX, meanY, sumX, sumY, nObs, zeroVarEx]

end FruitFrost
